import Mathlib

/-!
Shallow embedding of `src/rust_execution_engine.rs` (repository cqw04/Arbitrage).

Modelling conventions:
* Rust `f64` values (funding rates, amounts, profits) are modelled as `ℚ`.
  Every arithmetic operation the source performs on them (`+`, `-`, `*`,
  `abs`, `<`) is exact at the magnitudes involved, so the rational model
  tracks the float computation claim-for-claim.
* The source's `rand::random::<f64>()` draws (a time-seeded hash) are pure
  nondeterminism; each draw is threaded in as an explicit oracle parameter
  (`rP`, `rS`, `rExec` for the primary-rate, secondary-rate and
  execution-success draws).
* Wall-clock readings (`SystemTime::now()`) are oracle parameters as well:
  `startMs` is the reading taken at the top of
  `execute_funding_rate_arbitrage`, `endMs` the one taken after a successful
  `perform_high_frequency_arbitrage`.  `SystemTime::duration_since` returns
  an error when the second reading precedes the first (the clock is not
  monotonic), and the source calls `.unwrap()` on it; a panic is modelled
  as `none`.
* `std::collections::HashMap` is modelled as an association list in
  insertion order; the engine only ever inserts fixed keys at startup and
  the source never reads the map, so only its key set matters.
* The derived serde deserializer for `ArbitrageRequest` is modelled by
  `deserializeArbitrageRequest` over a JSON value tree, following serde's
  derive semantics: fields are filled from object entries in order,
  duplicate fields are an error, unknown fields are skipped (`#[derive]`
  without `deny_unknown_fields`), and any field still missing at the end is
  an error.  JSON arrays are collapsed into `Json.arrLike` since no field of
  the request decodes from an array (any array in a field position is a type
  error, which `arrLike` reproduces).
* The per-connection loop of `handle_connection` consumes a list of
  environment events (`ConnEvent`): what each `socket.read` produced, the
  oracle draws used while serving a message, and whether the corresponding
  `socket.write_all` succeeded.  The function returns the responses the
  loop serialized together with the reason the loop stopped
  (`TermCause.inputsExhausted` meaning the event list ran out while the
  loop was still alive and awaiting the next read).
-/

namespace Arbitrage

/-- Inbound request record (struct `ArbitrageRequest`, source lines 7-16). -/
structure ArbitrageRequest where
  strategy_id : String
  symbol : String
  primary_exchange : String
  secondary_exchange : String
  amount : ℚ
  priority : Int
  timestamp : String
deriving DecidableEq

/-- Outbound response record (struct `ArbitrageResponse`, source lines 18-25). -/
structure ArbitrageResponse where
  status : String
  profit : Option ℚ
  execution_time : String
  gas_used : Option Nat
  error_message : Option String
deriving DecidableEq

/-- Exchange connector metadata (source lines 33-38). -/
structure ExchangeConnector where
  name : String
  base_url : String
  api_key : String
  secret_key : String
deriving DecidableEq

/-- Gas-price configuration (source lines 40-43). -/
structure GasOptimizer where
  current_gas_price : Nat
  max_gas_limit : Nat
deriving DecidableEq

/-- Engine state (source lines 27-31); the `HashMap` of exchanges is an
association list in insertion order. -/
structure RustExecutionEngine where
  exchanges : List (String × ExchangeConnector)
  flash_loan_providers : List String
  gas_optimizer : GasOptimizer

/-- `RustExecutionEngine::new` (source lines 46-83). -/
def RustExecutionEngine.new : RustExecutionEngine where
  exchanges :=
    [ ("binance",
        { name := "binance", base_url := "https://fapi.binance.com",
          api_key := "", secret_key := "" }),
      ("bybit",
        { name := "bybit", base_url := "https://api.bybit.com",
          api_key := "", secret_key := "" }),
      ("okx",
        { name := "okx", base_url := "https://www.okx.com",
          api_key := "", secret_key := "" }) ]
  flash_loan_providers := ["aave", "dydx", "compound"]
  gas_optimizer := { current_gas_price := 20000000000, max_gas_limit := 5000000 }

/-- The keys of the engine's exchange registry. -/
def registryKeys (engine : RustExecutionEngine) : List String :=
  engine.exchanges.map Prod.fst

/-- `get_funding_rate` (source lines 148-156): a `match` on the exchange
name; the supported arms return a base rate plus the oracle draw scaled by
`0.0002`, the wildcard arm returns the unsupported-exchange error.  The
`symbol` argument is unused by the source. -/
def get_funding_rate (exchange : String) (symbol : String) (r : ℚ) :
    Except String ℚ :=
  if exchange = "binance" then .ok (0.0001 + r * 0.0002)
  else if exchange = "bybit" then .ok (0.0002 + r * 0.0002)
  else if exchange = "okx" then .ok (0.0003 + r * 0.0002)
  else .error ("不支持的交易所: " ++ exchange)

/-- `execute_flash_loan_arbitrage` (source lines 158-174): expected profit
is `amount * |rate_diff|`; the simulated execution succeeds when the oracle
draw is `< 0.9` and then returns 95% of the expected profit. -/
def execute_flash_loan_arbitrage (request : ArbitrageRequest)
    (rate_diff : ℚ) (rExec : ℚ) : Except String ℚ :=
  let expected_profit := request.amount * |rate_diff|
  if rExec < 0.9 then .ok (expected_profit * 0.95)
  else .error "套利執行失敗"

/-- `perform_high_frequency_arbitrage` (source lines 128-146): fetch the two
funding rates (the `match`es spell out the `?` operator's error
propagation), reject a rate difference of absolute value below `0.0001`,
otherwise run the flash-loan step. -/
def perform_high_frequency_arbitrage (request : ArbitrageRequest)
    (rP rS rExec : ℚ) : Except String ℚ :=
  match get_funding_rate request.primary_exchange request.symbol rP with
  | .error e => .error e
  | .ok primary_rate =>
    match get_funding_rate request.secondary_exchange request.symbol rS with
    | .error e => .error e
    | .ok secondary_rate =>
      let rate_diff := primary_rate - secondary_rate
      if |rate_diff| < 0.0001 then
        Except.error "資金費率差異太小"
      else
        execute_flash_loan_arbitrage request rate_diff rExec

/-- `SystemTime::duration_since` followed by `.unwrap()` (source lines
98-101): defined when the later reading is at least the earlier one,
otherwise the `unwrap` panics (`none`). -/
def duration_since_unwrap (now : Nat) (earlier : Nat) : Option Nat :=
  if earlier ≤ now then some (now - earlier) else none

/-- `execute_funding_rate_arbitrage` (source lines 85-126).  On an `Ok`
profit it builds the success response with the elapsed milliseconds and the
gas optimizer's current gas price; on an `Err` it builds the error response
with `execution_time` fixed to `"0ms"`.  The overall result is `none`
exactly when the `.unwrap()` on the success path panics. -/
def execute_funding_rate_arbitrage (engine : RustExecutionEngine)
    (request : ArbitrageRequest) (rP rS rExec : ℚ) (startMs endMs : Nat) :
    Option ArbitrageResponse :=
  match perform_high_frequency_arbitrage request rP rS rExec with
  | .ok profit =>
    match duration_since_unwrap endMs startMs with
    | some execution_time =>
      some { status := "success",
             profit := some profit,
             execution_time := toString execution_time ++ "ms",
             gas_used := some engine.gas_optimizer.current_gas_price,
             error_message := none }
    | none => none
  | .error error =>
    some { status := "error",
           profit := none,
           execution_time := "0ms",
           gas_used := none,
           error_message := some error }

/-- JSON value tree, the decoded form of an inbound payload.  Arrays carry
no further structure (`arrLike`) because no field of `ArbitrageRequest`
decodes from an array: in every position an array is a type error, which
the collapsed constructor reproduces. -/
inductive Json where
  | str (s : String)
  | num (q : ℚ)
  | bool (b : Bool)
  | null
  | arrLike
  | obj (fields : List (String × Json))

/-- serde: deserialize a Rust `String` field from a JSON value. -/
def decodeString : Json → Except String String
  | .str s => .ok s
  | _ => .error "invalid type, expected a string"

/-- serde_json: deserialize a Rust `f64` field (any JSON number). -/
def decodeF64 : Json → Except String ℚ
  | .num q => .ok q
  | _ => .error "invalid type, expected f64"

/-- serde_json: deserialize a Rust `i32` field (a JSON number that is an
integer in the `i32` range). -/
def decodeI32 : Json → Except String Int
  | .num q =>
    if q.den = 1 ∧ -(2 ^ 31) ≤ q.num ∧ q.num < 2 ^ 31 then .ok q.num
    else .error "invalid value, expected i32"
  | _ => .error "invalid type, expected i32"

/-- Accumulator of the derived deserializer: each field of
`ArbitrageRequest` is still absent (`none`) or already seen (`some`). -/
structure PartialRequest where
  strategy_id : Option String := none
  symbol : Option String := none
  primary_exchange : Option String := none
  secondary_exchange : Option String := none
  amount : Option ℚ := none
  priority : Option Int := none
  timestamp : Option String := none

/-- Whether a JSON object key names a field of `ArbitrageRequest`. -/
def isKnownField (k : String) : Bool :=
  k = "strategy_id" || k = "symbol" || k = "primary_exchange" ||
    k = "secondary_exchange" || k = "amount" || k = "priority" ||
    k = "timestamp"

/-- The field-visiting loop of the derived deserializer: object entries are
processed in order; an entry whose key names a struct field decodes its
value and records it (a second entry with the same key is a duplicate-field
error); an entry with any other key is skipped, serde's default for a
derive without `deny_unknown_fields`. -/
def fillFields : List (String × Json) → PartialRequest →
    Except String PartialRequest
  | [], acc => .ok acc
  | (k, v) :: rest, acc =>
    if k = "strategy_id" then
      match acc.strategy_id with
      | some _ => .error "duplicate field strategy_id"
      | none =>
        match decodeString v with
        | .error e => .error e
        | .ok s => fillFields rest { acc with strategy_id := some s }
    else if k = "symbol" then
      match acc.symbol with
      | some _ => .error "duplicate field symbol"
      | none =>
        match decodeString v with
        | .error e => .error e
        | .ok s => fillFields rest { acc with symbol := some s }
    else if k = "primary_exchange" then
      match acc.primary_exchange with
      | some _ => .error "duplicate field primary_exchange"
      | none =>
        match decodeString v with
        | .error e => .error e
        | .ok s => fillFields rest { acc with primary_exchange := some s }
    else if k = "secondary_exchange" then
      match acc.secondary_exchange with
      | some _ => .error "duplicate field secondary_exchange"
      | none =>
        match decodeString v with
        | .error e => .error e
        | .ok s => fillFields rest { acc with secondary_exchange := some s }
    else if k = "amount" then
      match acc.amount with
      | some _ => .error "duplicate field amount"
      | none =>
        match decodeF64 v with
        | .error e => .error e
        | .ok q => fillFields rest { acc with amount := some q }
    else if k = "priority" then
      match acc.priority with
      | some _ => .error "duplicate field priority"
      | none =>
        match decodeI32 v with
        | .error e => .error e
        | .ok n => fillFields rest { acc with priority := some n }
    else if k = "timestamp" then
      match acc.timestamp with
      | some _ => .error "duplicate field timestamp"
      | none =>
        match decodeString v with
        | .error e => .error e
        | .ok s => fillFields rest { acc with timestamp := some s }
    else
      fillFields rest acc

/-- The end of the derived deserializer: every field must have been seen,
the first one still absent (in declaration order) is a missing-field
error. -/
def finishFields (acc : PartialRequest) : Except String ArbitrageRequest :=
  match acc.strategy_id with
  | none => .error "missing field strategy_id"
  | some strategy_id =>
    match acc.symbol with
    | none => .error "missing field symbol"
    | some symbol =>
      match acc.primary_exchange with
      | none => .error "missing field primary_exchange"
      | some primary_exchange =>
        match acc.secondary_exchange with
        | none => .error "missing field secondary_exchange"
        | some secondary_exchange =>
          match acc.amount with
          | none => .error "missing field amount"
          | some amount =>
            match acc.priority with
            | none => .error "missing field priority"
            | some priority =>
              match acc.timestamp with
              | none => .error "missing field timestamp"
              | some timestamp =>
                .ok { strategy_id, symbol, primary_exchange,
                      secondary_exchange, amount, priority, timestamp }

/-- `serde_json::from_str::<ArbitrageRequest>` at the value level (source
line 214): the payload must be a JSON object, whose entries are folded by
`fillFields` starting from the all-absent accumulator and closed by
`finishFields`. -/
def deserializeArbitrageRequest (j : Json) : Except String ArbitrageRequest :=
  match j with
  | .obj fields =>
    match fillFields fields {} with
    | .error e => .error e
    | .ok acc => finishFields acc
  | _ => .error "invalid type, expected struct ArbitrageRequest"

/-- The response `handle_connection` synthesizes on a decode failure
(source lines 226-232). -/
def decodeErrorResponse (e : String) : ArbitrageResponse where
  status := "error"
  profit := none
  execution_time := "0ms"
  gas_used := none
  error_message := some ("解析失敗: " ++ e)

/-- One environment event of the per-connection loop: what `socket.read`
returned, and — for a data read — the oracle draws consumed while serving
the message and whether the `socket.write_all` of the response
succeeded. -/
inductive ConnEvent where
  | readClosed
  | readErr
  | msg (payload : Json) (rP rS rExec : ℚ) (startMs endMs : Nat)
      (writeOk : Bool)

/-- Why `handle_connection`'s loop stopped consuming events. -/
inductive TermCause where
  | inputsExhausted
  | peerClosed
  | readError
  | writeError
  | panicked
deriving DecidableEq

/-- Serving one data read (source lines 211-240): decode the payload; on
success run the engine (whose result is `none` if the duration `.unwrap()`
panicked), on failure synthesize the decode-error response. -/
def processMessage (engine : RustExecutionEngine) (payload : Json)
    (rP rS rExec : ℚ) (startMs endMs : Nat) : Option ArbitrageResponse :=
  match deserializeArbitrageRequest payload with
  | .ok request =>
    execute_funding_rate_arbitrage engine request rP rS rExec startMs endMs
  | .error e => some (decodeErrorResponse e)

/-- `handle_connection` (source lines 202-248) over a list of environment
events: a zero-byte read breaks the loop (`peerClosed`), a read error
breaks it (`readError`), a data read is served by `processMessage` and the
response written back — a write failure breaks the loop (`writeError`),
otherwise the loop continues with the remaining events.  Running out of
events means the loop was still alive awaiting its next read
(`inputsExhausted`); a panic inside the engine tears the handler task down
(`panicked`). -/
def handle_connection (engine : RustExecutionEngine) :
    List ConnEvent → List ArbitrageResponse × TermCause
  | [] => ([], .inputsExhausted)
  | .readClosed :: _ => ([], .peerClosed)
  | .readErr :: _ => ([], .readError)
  | .msg payload rP rS rExec startMs endMs writeOk :: rest =>
    match processMessage engine payload rP rS rExec startMs endMs with
    | none => ([], .panicked)
    | some response =>
      if writeOk then
        let next := handle_connection engine rest
        (response :: next.1, next.2)
      else ([response], .writeError)

/-! ### Invariants and general lemmas -/

/-- The spec's response invariant: the status is `success` or `error`,
`profit` is populated exactly on success, `error_message` exactly on error,
and `gas_used` only on success. -/
def responseWellFormed (r : ArbitrageResponse) : Prop :=
  (r.status = "success" ∨ r.status = "error") ∧
  (r.profit.isSome = true ↔ r.status = "success") ∧
  (r.error_message.isSome = true ↔ r.status = "error") ∧
  (r.gas_used.isSome = true → r.status = "success")

theorem wellFormed_of_execute (engine : RustExecutionEngine)
    (request : ArbitrageRequest) (rP rS rExec : ℚ) (startMs endMs : Nat)
    (r : ArbitrageResponse)
    (h : execute_funding_rate_arbitrage engine request rP rS rExec startMs
        endMs = some r) :
    responseWellFormed r := by
  unfold execute_funding_rate_arbitrage at h
  repeat' split at h
  all_goals simp only [Option.some.injEq, reduceCtorEq] at h
  all_goals subst h
  all_goals simp +decide [responseWellFormed]

theorem wellFormed_decodeErrorResponse (e : String) :
    responseWellFormed (decodeErrorResponse e) := by
  simp +decide [responseWellFormed, decodeErrorResponse]

theorem wellFormed_of_processMessage (engine : RustExecutionEngine)
    (payload : Json) (rP rS rExec : ℚ) (startMs endMs : Nat)
    (r : ArbitrageResponse)
    (h : processMessage engine payload rP rS rExec startMs endMs = some r) :
    responseWellFormed r := by
  unfold processMessage at h
  split at h
  · exact wellFormed_of_execute _ _ _ _ _ _ _ _ h
  · simp only [Option.some.injEq] at h
    subst h
    exact wellFormed_decodeErrorResponse _

theorem execute_isSome_of_le (engine : RustExecutionEngine)
    (request : ArbitrageRequest) (rP rS rExec : ℚ) (startMs endMs : Nat)
    (h : startMs ≤ endMs) :
    (execute_funding_rate_arbitrage engine request rP rS rExec startMs
        endMs).isSome = true := by
  unfold execute_funding_rate_arbitrage
  cases hp : perform_high_frequency_arbitrage request rP rS rExec with
  | ok profit => simp [duration_since_unwrap, h]
  | error e => simp

theorem processMessage_isSome_of_le (engine : RustExecutionEngine)
    (payload : Json) (rP rS rExec : ℚ) (startMs endMs : Nat)
    (h : startMs ≤ endMs) :
    (processMessage engine payload rP rS rExec startMs endMs).isSome =
      true := by
  unfold processMessage
  split
  · exact execute_isSome_of_le _ _ _ _ _ _ _ h
  · simp

theorem fillFields_preserves_strategy_id :
    ∀ (fields : List (String × Json)) (acc acc2 : PartialRequest),
      fillFields fields acc = .ok acc2 →
      "strategy_id" ∉ fields.map Prod.fst →
      acc2.strategy_id = acc.strategy_id := by
  intro fields
  induction fields with
  | nil =>
    intro acc acc2 h _
    simp [fillFields] at h
    subst h
    rfl
  | cons kv rest ih =>
    intro acc acc2 h hmem
    obtain ⟨k, v⟩ := kv
    simp only [List.map_cons, List.mem_cons, not_or] at hmem
    obtain ⟨hk, hrest⟩ := hmem
    unfold fillFields at h
    repeat' split at h
    all_goals first
      | exact absurd h (by simp)
      | exact absurd ‹k = "strategy_id"› (fun hh => hk hh.symm)
      | exact (ih _ _ h hrest).trans rfl

theorem fillFields_preserves_symbol :
    ∀ (fields : List (String × Json)) (acc acc2 : PartialRequest),
      fillFields fields acc = .ok acc2 →
      "symbol" ∉ fields.map Prod.fst →
      acc2.symbol = acc.symbol := by
  intro fields
  induction fields with
  | nil =>
    intro acc acc2 h _
    simp [fillFields] at h
    subst h
    rfl
  | cons kv rest ih =>
    intro acc acc2 h hmem
    obtain ⟨k, v⟩ := kv
    simp only [List.map_cons, List.mem_cons, not_or] at hmem
    obtain ⟨hk, hrest⟩ := hmem
    unfold fillFields at h
    repeat' split at h
    all_goals first
      | exact absurd h (by simp)
      | exact absurd ‹k = "symbol"› (fun hh => hk hh.symm)
      | exact (ih _ _ h hrest).trans rfl

theorem fillFields_preserves_primary_exchange :
    ∀ (fields : List (String × Json)) (acc acc2 : PartialRequest),
      fillFields fields acc = .ok acc2 →
      "primary_exchange" ∉ fields.map Prod.fst →
      acc2.primary_exchange = acc.primary_exchange := by
  intro fields
  induction fields with
  | nil =>
    intro acc acc2 h _
    simp [fillFields] at h
    subst h
    rfl
  | cons kv rest ih =>
    intro acc acc2 h hmem
    obtain ⟨k, v⟩ := kv
    simp only [List.map_cons, List.mem_cons, not_or] at hmem
    obtain ⟨hk, hrest⟩ := hmem
    unfold fillFields at h
    repeat' split at h
    all_goals first
      | exact absurd h (by simp)
      | exact absurd ‹k = "primary_exchange"› (fun hh => hk hh.symm)
      | exact (ih _ _ h hrest).trans rfl

theorem fillFields_preserves_secondary_exchange :
    ∀ (fields : List (String × Json)) (acc acc2 : PartialRequest),
      fillFields fields acc = .ok acc2 →
      "secondary_exchange" ∉ fields.map Prod.fst →
      acc2.secondary_exchange = acc.secondary_exchange := by
  intro fields
  induction fields with
  | nil =>
    intro acc acc2 h _
    simp [fillFields] at h
    subst h
    rfl
  | cons kv rest ih =>
    intro acc acc2 h hmem
    obtain ⟨k, v⟩ := kv
    simp only [List.map_cons, List.mem_cons, not_or] at hmem
    obtain ⟨hk, hrest⟩ := hmem
    unfold fillFields at h
    repeat' split at h
    all_goals first
      | exact absurd h (by simp)
      | exact absurd ‹k = "secondary_exchange"› (fun hh => hk hh.symm)
      | exact (ih _ _ h hrest).trans rfl

theorem fillFields_preserves_amount :
    ∀ (fields : List (String × Json)) (acc acc2 : PartialRequest),
      fillFields fields acc = .ok acc2 →
      "amount" ∉ fields.map Prod.fst →
      acc2.amount = acc.amount := by
  intro fields
  induction fields with
  | nil =>
    intro acc acc2 h _
    simp [fillFields] at h
    subst h
    rfl
  | cons kv rest ih =>
    intro acc acc2 h hmem
    obtain ⟨k, v⟩ := kv
    simp only [List.map_cons, List.mem_cons, not_or] at hmem
    obtain ⟨hk, hrest⟩ := hmem
    unfold fillFields at h
    repeat' split at h
    all_goals first
      | exact absurd h (by simp)
      | exact absurd ‹k = "amount"› (fun hh => hk hh.symm)
      | exact (ih _ _ h hrest).trans rfl

theorem fillFields_preserves_priority :
    ∀ (fields : List (String × Json)) (acc acc2 : PartialRequest),
      fillFields fields acc = .ok acc2 →
      "priority" ∉ fields.map Prod.fst →
      acc2.priority = acc.priority := by
  intro fields
  induction fields with
  | nil =>
    intro acc acc2 h _
    simp [fillFields] at h
    subst h
    rfl
  | cons kv rest ih =>
    intro acc acc2 h hmem
    obtain ⟨k, v⟩ := kv
    simp only [List.map_cons, List.mem_cons, not_or] at hmem
    obtain ⟨hk, hrest⟩ := hmem
    unfold fillFields at h
    repeat' split at h
    all_goals first
      | exact absurd h (by simp)
      | exact absurd ‹k = "priority"› (fun hh => hk hh.symm)
      | exact (ih _ _ h hrest).trans rfl

theorem fillFields_preserves_timestamp :
    ∀ (fields : List (String × Json)) (acc acc2 : PartialRequest),
      fillFields fields acc = .ok acc2 →
      "timestamp" ∉ fields.map Prod.fst →
      acc2.timestamp = acc.timestamp := by
  intro fields
  induction fields with
  | nil =>
    intro acc acc2 h _
    simp [fillFields] at h
    subst h
    rfl
  | cons kv rest ih =>
    intro acc acc2 h hmem
    obtain ⟨k, v⟩ := kv
    simp only [List.map_cons, List.mem_cons, not_or] at hmem
    obtain ⟨hk, hrest⟩ := hmem
    unfold fillFields at h
    repeat' split at h
    all_goals first
      | exact absurd h (by simp)
      | exact absurd ‹k = "timestamp"› (fun hh => hk hh.symm)
      | exact (ih _ _ h hrest).trans rfl

theorem finishFields_isSome :
    ∀ (acc : PartialRequest) (req : ArbitrageRequest),
      finishFields acc = .ok req →
      acc.strategy_id.isSome = true ∧ acc.symbol.isSome = true ∧
      acc.primary_exchange.isSome = true ∧
      acc.secondary_exchange.isSome = true ∧ acc.amount.isSome = true ∧
      acc.priority.isSome = true ∧ acc.timestamp.isSome = true := by
  intro acc req h
  unfold finishFields at h
  repeat' split at h
  all_goals simp_all

theorem deserialize_ok_keys (fields : List (String × Json))
    (req : ArbitrageRequest)
    (h : deserializeArbitrageRequest (.obj fields) = .ok req) :
    "strategy_id" ∈ fields.map Prod.fst ∧ "symbol" ∈ fields.map Prod.fst ∧
    "primary_exchange" ∈ fields.map Prod.fst ∧
    "secondary_exchange" ∈ fields.map Prod.fst ∧
    "amount" ∈ fields.map Prod.fst ∧ "priority" ∈ fields.map Prod.fst ∧
    "timestamp" ∈ fields.map Prod.fst := by
  have h2 : (match fillFields fields ({} : PartialRequest) with
      | .error e => (.error e : Except String ArbitrageRequest)
      | .ok acc => finishFields acc) = .ok req := h
  cases hfill : fillFields fields ({} : PartialRequest) with
  | error e =>
    rw [hfill] at h2
    simp at h2
  | ok acc =>
    rw [hfill] at h2
    have hsome := finishFields_isSome acc req h2
    refine ⟨?_, ?_, ?_, ?_, ?_, ?_, ?_⟩
    · by_contra hmem
      rw [fillFields_preserves_strategy_id fields {} acc hfill hmem] at hsome
      simp at hsome
    · by_contra hmem
      rw [fillFields_preserves_symbol fields {} acc hfill hmem] at hsome
      simp at hsome
    · by_contra hmem
      rw [fillFields_preserves_primary_exchange fields {} acc hfill hmem]
        at hsome
      simp at hsome
    · by_contra hmem
      rw [fillFields_preserves_secondary_exchange fields {} acc hfill hmem]
        at hsome
      simp at hsome
    · by_contra hmem
      rw [fillFields_preserves_amount fields {} acc hfill hmem] at hsome
      simp at hsome
    · by_contra hmem
      rw [fillFields_preserves_priority fields {} acc hfill hmem] at hsome
      simp at hsome
    · by_contra hmem
      rw [fillFields_preserves_timestamp fields {} acc hfill hmem] at hsome
      simp at hsome

theorem deserialize_skips_unknown (k : String) (v : Json)
    (fields : List (String × Json)) (hk : isKnownField k = false) :
    deserializeArbitrageRequest (.obj ((k, v) :: fields)) =
      deserializeArbitrageRequest (.obj fields) := by
  simp only [isKnownField, Bool.or_eq_false_iff, decide_eq_false_iff_not]
    at hk
  obtain ⟨⟨⟨⟨⟨⟨h1, h2⟩, h3⟩, h4⟩, h5⟩, h6⟩, h7⟩ := hk
  have hstep : fillFields ((k, v) :: fields) ({} : PartialRequest) =
      fillFields fields ({} : PartialRequest) := by
    conv_lhs => rw [fillFields]
    rw [if_neg h1, if_neg h2, if_neg h3, if_neg h4, if_neg h5, if_neg h6,
        if_neg h7]
  show (match fillFields ((k, v) :: fields) ({} : PartialRequest) with
      | .error e => (.error e : Except String ArbitrageRequest)
      | .ok acc => finishFields acc) =
    (match fillFields fields ({} : PartialRequest) with
      | .error e => (.error e : Except String ArbitrageRequest)
      | .ok acc => finishFields acc)
  rw [hstep]

/-! ### Concrete fixtures used to instantiate the claims -/

/-- A request matching the spec's example scenario: `binance` against
`bybit`, amount 10000. -/
def req10000 : ArbitrageRequest where
  strategy_id := "s1"
  symbol := "BTCUSDT"
  primary_exchange := "binance"
  secondary_exchange := "bybit"
  amount := 10000
  priority := 1
  timestamp := "t1"

/-- Same trade but with a negative caller-supplied amount; nothing in the
engine rejects it. -/
def reqNeg : ArbitrageRequest := { req10000 with amount := -1000 }

/-- Both legs on `binance`: with equal oracle draws the two rates tie, so
the rate difference is below the threshold. -/
def reqSame : ArbitrageRequest := { req10000 with secondary_exchange := "binance" }

/-- Primary leg on an exchange that is not configured. -/
def reqFtx : ArbitrageRequest := { req10000 with primary_exchange := "ftx" }

/-- The entries of a JSON object carrying exactly the seven request
fields. -/
def payloadFields10000 : List (String × Json) :=
  [("strategy_id", .str "s1"), ("symbol", .str "BTCUSDT"),
   ("primary_exchange", .str "binance"),
   ("secondary_exchange", .str "bybit"),
   ("amount", .num 10000), ("priority", .num 1),
   ("timestamp", .str "t1")]

/-- A payload whose JSON object carries exactly the seven request fields. -/
def payload10000 : Json := .obj payloadFields10000

/-- `payload10000` with an extra field no deserializer arm knows. -/
def payloadUnknown : Json :=
  .obj [("strategy_id", .str "s1"), ("symbol", .str "BTCUSDT"),
        ("primary_exchange", .str "binance"),
        ("secondary_exchange", .str "bybit"),
        ("amount", .num 10000), ("priority", .num 1),
        ("timestamp", .str "t1"), ("unknown_field", .str "x")]

/-- The response of a successful run of `req10000` with zero oracle draws
and a 5 ms elapsed time: profit `10000 * 0.0001 * 0.95 = 0.95`. -/
def respSuccess10000 : ArbitrageResponse where
  status := "success"
  profit := some (19/20)
  execution_time := "5ms"
  gas_used := some 20000000000
  error_message := none

theorem deser_payload10000 :
    deserializeArbitrageRequest payload10000 = .ok req10000 := by
  simp [deserializeArbitrageRequest, payload10000, fillFields, finishFields,
        decodeString, decodeF64, decodeI32, req10000]

theorem perform_req10000 :
    perform_high_frequency_arbitrage req10000 0 0 0 = .ok (19/20) := by
  norm_num +decide [perform_high_frequency_arbitrage, get_funding_rate,
        execute_flash_loan_arbitrage, req10000, abs]

theorem perform_reqNeg :
    perform_high_frequency_arbitrage reqNeg 0 0 0 = .ok (-19/200) := by
  norm_num +decide [perform_high_frequency_arbitrage, get_funding_rate,
        execute_flash_loan_arbitrage, reqNeg, req10000, abs]

theorem perform_reqSame :
    perform_high_frequency_arbitrage reqSame 0 0 0 =
      .error "資金費率差異太小" := by
  norm_num +decide [perform_high_frequency_arbitrage, get_funding_rate,
        execute_flash_loan_arbitrage, reqSame, req10000, abs]

theorem exec_success10000 :
    execute_funding_rate_arbitrage RustExecutionEngine.new req10000 0 0 0 0 5 =
      some respSuccess10000 := by
  rw [execute_funding_rate_arbitrage, perform_req10000]
  simp only [duration_since_unwrap, Nat.zero_le, if_true, if_pos]
  rfl

theorem exec_panics :
    execute_funding_rate_arbitrage RustExecutionEngine.new req10000 0 0 0 1 0 =
      none := by
  rw [execute_funding_rate_arbitrage, perform_req10000]
  simp [duration_since_unwrap]

/-! ### Registry and strategy-evaluation lemmas -/

theorem registry_mem_iff (e : String) :
    e ∈ registryKeys RustExecutionEngine.new ↔
      e = "binance" ∨ e = "bybit" ∨ e = "okx" := by
  simp [registryKeys, RustExecutionEngine.new]

theorem get_funding_rate_isOk (e s : String) (r : ℚ)
    (h : e = "binance" ∨ e = "bybit" ∨ e = "okx") :
    ∃ q, get_funding_rate e s r = .ok q := by
  unfold get_funding_rate
  rcases h with rfl | rfl | rfl <;> simp +decide

theorem perform_below_threshold (request : ArbitrageRequest)
    (rP rS rExec : ℚ) (rateA rateB : ℚ)
    (ha : get_funding_rate request.primary_exchange request.symbol rP =
        .ok rateA)
    (hb : get_funding_rate request.secondary_exchange request.symbol rS =
        .ok rateB)
    (hd : |rateA - rateB| < 0.0001) :
    perform_high_frequency_arbitrage request rP rS rExec =
      .error "資金費率差異太小" := by
  unfold perform_high_frequency_arbitrage
  simp only [ha, hb]
  rw [if_pos hd]

theorem perform_unsupported_primary (request : ArbitrageRequest)
    (rP rS rExec : ℚ)
    (h1 : request.primary_exchange ≠ "binance")
    (h2 : request.primary_exchange ≠ "bybit")
    (h3 : request.primary_exchange ≠ "okx") :
    perform_high_frequency_arbitrage request rP rS rExec =
      .error ("不支持的交易所: " ++ request.primary_exchange) := by
  unfold perform_high_frequency_arbitrage get_funding_rate
  rw [if_neg h1, if_neg h2, if_neg h3]

theorem perform_unsupported_secondary (request : ArbitrageRequest)
    (rP rS rExec : ℚ)
    (hp : request.primary_exchange = "binance" ∨
        request.primary_exchange = "bybit" ∨
        request.primary_exchange = "okx")
    (h1 : request.secondary_exchange ≠ "binance")
    (h2 : request.secondary_exchange ≠ "bybit")
    (h3 : request.secondary_exchange ≠ "okx") :
    perform_high_frequency_arbitrage request rP rS rExec =
      .error ("不支持的交易所: " ++ request.secondary_exchange) := by
  obtain ⟨q, hq⟩ :=
    get_funding_rate_isOk request.primary_exchange request.symbol rP hp
  unfold perform_high_frequency_arbitrage
  simp only [hq]
  simp [get_funding_rate, h1, h2, h3]

/-- A message event whose completion clock reading is not earlier than its
start reading; trivially true of the other events. -/
def eventClockOk : ConnEvent → Prop
  | .msg _ _ _ _ startMs endMs _ => startMs ≤ endMs
  | _ => True

/-! ### The claims -/

/-- Claim C1: every `ArbitrageResponse` the engine produces over a
connection — the responses built by `execute_funding_rate_arbitrage` and
the decode-failure response synthesized by `handle_connection` — has
status exactly one of success/error, carries `profit` iff the status is
success, carries `error_message` iff the status is error, and carries
`gas_used` only when the status is success. -/
theorem claim_C1_response_invariant (engine : RustExecutionEngine)
    (events : List ConnEvent) (r : ArbitrageResponse)
    (h : r ∈ (handle_connection engine events).1) :
    responseWellFormed r := by
  induction events with
  | nil => simp [handle_connection] at h
  | cons e rest ih =>
    cases e with
    | readClosed => simp [handle_connection] at h
    | readErr => simp [handle_connection] at h
    | msg payload rP rS rExec startMs endMs writeOk =>
      simp only [handle_connection] at h
      cases hp : processMessage engine payload rP rS rExec startMs endMs with
      | none => rw [hp] at h; simp at h
      | some response =>
        rw [hp] at h
        cases writeOk with
        | true =>
          simp only [if_true] at h
          rcases List.mem_cons.mp h with rfl | hmem
          · exact wellFormed_of_processMessage _ _ _ _ _ _ _ _ hp
          · exact ih hmem
        | false =>
          simp only [Bool.false_eq_true, if_false, List.mem_singleton] at h
          subst h
          exact wellFormed_of_processMessage _ _ _ _ _ _ _ _ hp

/-- Witness for C1: the decode-failure response written for a junk payload
on a live connection satisfies the invariant. -/
theorem claim_C1_response_invariant_witness :
    responseWellFormed
      (decodeErrorResponse "invalid type, expected struct ArbitrageRequest") :=
  claim_C1_response_invariant RustExecutionEngine.new
    [.msg (.str "junk") 0 0 0 0 0 true]
    (decodeErrorResponse "invalid type, expected struct ArbitrageRequest")
    (by simp [handle_connection, processMessage, deserializeArbitrageRequest])

/-- Counterexample to C2 as stated: the engine never validates the
caller-supplied amount, so a successful execution of a request with
`amount = -1000` (rates 0.0001 and 0.0002, execution draw 0) returns the
strictly negative profit `-1000 * 0.0001 * 0.95 = -0.095`, refuting
"this profit is non-negative". -/
theorem claim_C2_counterexample :
    get_funding_rate reqNeg.primary_exchange reqNeg.symbol 0 = .ok 0.0001 ∧
    get_funding_rate reqNeg.secondary_exchange reqNeg.symbol 0 = .ok 0.0002 ∧
    perform_high_frequency_arbitrage reqNeg 0 0 0 = .ok (-19/200) ∧
    (-19/200 : ℚ) < 0 := by
  refine ⟨?_, ?_, perform_reqNeg, by norm_num⟩
  · norm_num [get_funding_rate, reqNeg, req10000]
  · norm_num +decide [get_funding_rate, reqNeg, req10000]

/-- Claim C2 (amended): whenever the simulated execution takes the success
path, the returned profit equals `amount * |rate_a - rate_b| * 0.95` for
the two fetched rates; the profit is non-negative whenever the requested
amount is non-negative (the engine never checks the amount's sign, so a
negative amount yields a negative profit). -/
theorem claim_C2_amended (request : ArbitrageRequest) (rP rS rExec : ℚ)
    (rateA rateB p : ℚ)
    (ha : get_funding_rate request.primary_exchange request.symbol rP =
        .ok rateA)
    (hb : get_funding_rate request.secondary_exchange request.symbol rS =
        .ok rateB)
    (hp : perform_high_frequency_arbitrage request rP rS rExec = .ok p) :
    p = request.amount * |rateA - rateB| * 0.95 ∧
    (0 ≤ request.amount → 0 ≤ p) := by
  unfold perform_high_frequency_arbitrage at hp
  simp only [ha, hb] at hp
  by_cases hd : |rateA - rateB| < 0.0001
  · rw [if_pos hd] at hp
    exact absurd hp (by simp)
  · rw [if_neg hd] at hp
    simp only [execute_flash_loan_arbitrage] at hp
    by_cases he : rExec < 0.9
    · rw [if_pos he] at hp
      simp only [Except.ok.injEq] at hp
      subst hp
      refine ⟨rfl, fun hamt => ?_⟩
      have habs : 0 ≤ |rateA - rateB| := abs_nonneg _
      have h95 : (0 : ℚ) ≤ 0.95 := by norm_num
      exact mul_nonneg (mul_nonneg hamt habs) h95
    · rw [if_neg he] at hp
      exact absurd hp (by simp)

/-- Witness for the amended C2 at the spec's example trade. -/
theorem claim_C2_amended_witness :
    (19/20 : ℚ) = req10000.amount * |(0.0001 : ℚ) - 0.0002| * 0.95 ∧
    (0 ≤ req10000.amount → 0 ≤ (19/20 : ℚ)) :=
  claim_C2_amended req10000 0 0 0 0.0001 0.0002 (19/20)
    (by norm_num [get_funding_rate, req10000])
    (by norm_num +decide [get_funding_rate, req10000])
    perform_req10000

/-- Claim C3: whenever the two fetched rates differ in absolute value by
strictly less than 0.0001, the engine answers the below-threshold error
response — for every amount (the request is arbitrary) and without
attempting execution (the execution draw `rExec` is arbitrary and absent
from the result). -/
theorem claim_C3_below_threshold (engine : RustExecutionEngine)
    (request : ArbitrageRequest) (rP rS rExec : ℚ) (startMs endMs : Nat)
    (rateA rateB : ℚ)
    (ha : get_funding_rate request.primary_exchange request.symbol rP =
        .ok rateA)
    (hb : get_funding_rate request.secondary_exchange request.symbol rS =
        .ok rateB)
    (hd : |rateA - rateB| < 0.0001) :
    execute_funding_rate_arbitrage engine request rP rS rExec startMs endMs =
      some { status := "error", profit := none, execution_time := "0ms",
             gas_used := none, error_message := some "資金費率差異太小" } := by
  unfold execute_funding_rate_arbitrage
  rw [perform_below_threshold request rP rS rExec rateA rateB ha hb hd]

/-- Witness for C3: both legs on `binance` with equal draws tie exactly,
and the difference 0 is below the threshold. -/
theorem claim_C3_below_threshold_witness :
    execute_funding_rate_arbitrage RustExecutionEngine.new reqSame 0 0 0 0 0 =
      some { status := "error", profit := none, execution_time := "0ms",
             gas_used := none, error_message := some "資金費率差異太小" } :=
  claim_C3_below_threshold RustExecutionEngine.new reqSame 0 0 0 0 0
    (0.0001 + 0 * 0.0002) (0.0001 + 0 * 0.0002) rfl rfl
    (by norm_num)

/-- Claim C4: a request naming an unconfigured exchange produces the error
response naming that exchange, with no profit; the failed first lookup
short-circuits — the result does not depend on the secondary draw `rS`,
the execution draw `rExec`, or the clock (all universally quantified). -/
theorem claim_C4_unsupported_exchange (request : ArbitrageRequest)
    (rP rS rExec : ℚ) (startMs endMs : Nat) :
    (request.primary_exchange ∉ registryKeys RustExecutionEngine.new →
      execute_funding_rate_arbitrage RustExecutionEngine.new request rP rS
          rExec startMs endMs =
        some { status := "error", profit := none, execution_time := "0ms",
               gas_used := none,
               error_message :=
                 some ("不支持的交易所: " ++ request.primary_exchange) }) ∧
    (request.primary_exchange ∈ registryKeys RustExecutionEngine.new →
     request.secondary_exchange ∉ registryKeys RustExecutionEngine.new →
      execute_funding_rate_arbitrage RustExecutionEngine.new request rP rS
          rExec startMs endMs =
        some { status := "error", profit := none, execution_time := "0ms",
               gas_used := none,
               error_message :=
                 some ("不支持的交易所: " ++ request.secondary_exchange) }) := by
  constructor
  · intro h
    rw [registry_mem_iff] at h
    push_neg at h
    obtain ⟨h1, h2, h3⟩ := h
    unfold execute_funding_rate_arbitrage
    rw [perform_unsupported_primary request rP rS rExec h1 h2 h3]
  · intro hp hs
    rw [registry_mem_iff] at hp
    rw [registry_mem_iff] at hs
    push_neg at hs
    obtain ⟨h1, h2, h3⟩ := hs
    unfold execute_funding_rate_arbitrage
    rw [perform_unsupported_secondary request rP rS rExec hp h1 h2 h3]

/-- Witness for C4 at the unconfigured exchange `ftx`. -/
theorem claim_C4_unsupported_exchange_witness :
    execute_funding_rate_arbitrage RustExecutionEngine.new reqFtx 0 0 0 0 0 =
      some { status := "error", profit := none, execution_time := "0ms",
             gas_used := none,
             error_message := some ("不支持的交易所: " ++ "ftx") } :=
  (claim_C4_unsupported_exchange reqFtx 0 0 0 0 0).1
    (by simp [registryKeys, RustExecutionEngine.new, reqFtx, req10000])

/-- Counterexample to C5 as stated: the loop can also terminate by a panic
that is neither a zero-byte read, a read error, nor a write error — a
well-formed message served on the success path with the completion clock
reading (0) earlier than the start reading (1) makes the duration
`.unwrap()` panic and tears the handler down. -/
theorem claim_C5_counterexample :
    handle_connection RustExecutionEngine.new
        [.msg payload10000 0 0 0 1 0 true] = ([], TermCause.panicked) ∧
    TermCause.panicked ≠ TermCause.peerClosed ∧
    TermCause.panicked ≠ TermCause.readError ∧
    TermCause.panicked ≠ TermCause.writeError := by
  refine ⟨?_, by decide, by decide, by decide⟩
  simp [handle_connection, processMessage, deser_payload10000, exec_panics]

/-- Claim C5 (amended): the connection loop never terminates because of a
business-logic or decode failure — every served message (decode failures
included) whose write succeeds continues the loop, a decode failure is
answered with the error response carrying the decode diagnostic, and the
loop breaks exactly on a zero-byte read, a read error, or a write error —
provided no message's completion clock reading precedes its start reading;
with such a clock anomaly the duration `.unwrap()` on the success path can
additionally terminate the handler by panic. -/
theorem claim_C5_amended (engine : RustExecutionEngine) :
    (∀ events : List ConnEvent, (∀ e ∈ events, eventClockOk e) →
        (handle_connection engine events).2 ≠ TermCause.panicked) ∧
    (∀ (payload : Json) (rP rS rExec : ℚ) (startMs endMs : Nat)
        (rest : List ConnEvent), startMs ≤ endMs →
        ∃ response,
          processMessage engine payload rP rS rExec startMs endMs =
            some response ∧
          handle_connection engine
              (.msg payload rP rS rExec startMs endMs true :: rest) =
            (response :: (handle_connection engine rest).1,
             (handle_connection engine rest).2)) ∧
    (∀ (payload : Json) (rP rS rExec : ℚ) (startMs endMs : Nat)
        (de : String),
        deserializeArbitrageRequest payload = .error de →
        processMessage engine payload rP rS rExec startMs endMs =
          some (decodeErrorResponse de)) ∧
    (∀ rest : List ConnEvent,
        handle_connection engine (.readClosed :: rest) =
          ([], TermCause.peerClosed)) ∧
    (∀ rest : List ConnEvent,
        handle_connection engine (.readErr :: rest) =
          ([], TermCause.readError)) ∧
    (∀ (payload : Json) (rP rS rExec : ℚ) (startMs endMs : Nat)
        (rest : List ConnEvent), startMs ≤ endMs →
        ∃ response,
          handle_connection engine
              (.msg payload rP rS rExec startMs endMs false :: rest) =
            ([response], TermCause.writeError)) := by
  refine ⟨?_, ?_, ?_, ?_, ?_, ?_⟩
  · intro events
    induction events with
    | nil => intro _; simp [handle_connection]
    | cons e rest ih =>
      intro h
      have htail : ∀ x ∈ rest, eventClockOk x :=
        fun x hx => h x (List.mem_cons_of_mem _ hx)
      cases e with
      | readClosed => simp +decide [handle_connection]
      | readErr => simp +decide [handle_connection]
      | msg payload rP rS rExec startMs endMs writeOk =>
        have hclock : startMs ≤ endMs := h _ (List.mem_cons_self _ _)
        obtain ⟨response, hp⟩ := Option.isSome_iff_exists.mp
          (processMessage_isSome_of_le engine payload rP rS rExec startMs
            endMs hclock)
        simp only [handle_connection, hp]
        cases writeOk with
        | true => simpa using ih htail
        | false => simp +decide
  · intro payload rP rS rExec startMs endMs rest hle
    obtain ⟨response, hp⟩ := Option.isSome_iff_exists.mp
      (processMessage_isSome_of_le engine payload rP rS rExec startMs endMs
        hle)
    exact ⟨response, hp, by simp [handle_connection, hp]⟩
  · intro payload rP rS rExec startMs endMs de hde
    unfold processMessage
    rw [hde]
  · intro rest; rfl
  · intro rest; rfl
  · intro payload rP rS rExec startMs endMs rest hle
    obtain ⟨response, hp⟩ := Option.isSome_iff_exists.mp
      (processMessage_isSome_of_le engine payload rP rS rExec startMs endMs
        hle)
    exact ⟨response, by simp [handle_connection, hp]⟩

/-- Witness for the amended C5 on concrete traces: a served message does
not end a clock-sane trace by panic; a junk payload is answered with the
decode-error response; the three terminating reads/writes behave as
claimed. -/
theorem claim_C5_amended_witness :
    (handle_connection RustExecutionEngine.new
        [ConnEvent.msg payload10000 0 0 0 0 5 true]).2 ≠
      TermCause.panicked ∧
    processMessage RustExecutionEngine.new (Json.str "junk") 0 0 0 0 0 =
      some (decodeErrorResponse
        "invalid type, expected struct ArbitrageRequest") ∧
    handle_connection RustExecutionEngine.new [ConnEvent.readClosed] =
      ([], TermCause.peerClosed) ∧
    handle_connection RustExecutionEngine.new [ConnEvent.readErr] =
      ([], TermCause.readError) ∧
    (∃ response,
        handle_connection RustExecutionEngine.new
            [ConnEvent.msg payload10000 0 0 0 0 5 false] =
          ([response], TermCause.writeError)) := by
  obtain ⟨ha, hb, hc, hd, he, hf⟩ := claim_C5_amended RustExecutionEngine.new
  refine ⟨ha [ConnEvent.msg payload10000 0 0 0 0 5 true] ?_,
          hc (Json.str "junk") 0 0 0 0 0 _ rfl, hd [], he [],
          hf payload10000 0 0 0 0 5 [] (by decide)⟩
  intro ev hev
  rw [List.mem_singleton] at hev
  subst hev
  exact Nat.le_of_lt_succ (by decide)

/-- Counterexample to C6 as stated: the derived deserializer silently
ignores unknown fields (no `deny_unknown_fields`), so a payload carrying
the extra field `unknown_field` decodes successfully instead of being
rejected. -/
theorem claim_C6_counterexample :
    deserializeArbitrageRequest payloadUnknown = .ok req10000 := by
  simp [deserializeArbitrageRequest, payloadUnknown, fillFields,
        finishFields, decodeString, decodeF64, decodeI32, req10000]

/-- Claim C6 (amended): a payload missing any of the seven request fields
is rejected as a decode error — a successful decode forces every field
name to occur among the object's keys — but an unknown field is silently
skipped, leaving the decode result unchanged, rather than being
rejected. -/
theorem claim_C6_amended :
    (∀ (fields : List (String × Json)) (req : ArbitrageRequest),
        deserializeArbitrageRequest (.obj fields) = .ok req →
        "strategy_id" ∈ fields.map Prod.fst ∧
        "symbol" ∈ fields.map Prod.fst ∧
        "primary_exchange" ∈ fields.map Prod.fst ∧
        "secondary_exchange" ∈ fields.map Prod.fst ∧
        "amount" ∈ fields.map Prod.fst ∧
        "priority" ∈ fields.map Prod.fst ∧
        "timestamp" ∈ fields.map Prod.fst) ∧
    (∀ (k : String) (v : Json) (fields : List (String × Json)),
        isKnownField k = false →
        deserializeArbitrageRequest (.obj ((k, v) :: fields)) =
          deserializeArbitrageRequest (.obj fields)) :=
  ⟨deserialize_ok_keys, deserialize_skips_unknown⟩

/-- Witness for the amended C6: the example payload's successful decode
exhibits all seven keys, and prepending `unknown_field` leaves the decode
result unchanged. -/
theorem claim_C6_amended_witness :
    ("strategy_id" ∈ payloadFields10000.map Prod.fst ∧
     "symbol" ∈ payloadFields10000.map Prod.fst ∧
     "primary_exchange" ∈ payloadFields10000.map Prod.fst ∧
     "secondary_exchange" ∈ payloadFields10000.map Prod.fst ∧
     "amount" ∈ payloadFields10000.map Prod.fst ∧
     "priority" ∈ payloadFields10000.map Prod.fst ∧
     "timestamp" ∈ payloadFields10000.map Prod.fst) ∧
    deserializeArbitrageRequest
        (.obj (("unknown_field", .str "x") :: payloadFields10000)) =
      deserializeArbitrageRequest (.obj payloadFields10000) :=
  ⟨claim_C6_amended.1 payloadFields10000 req10000 deser_payload10000,
   claim_C6_amended.2 "unknown_field" (.str "x") payloadFields10000 rfl⟩

/-- Claim C7: every failing request (unsupported exchange, below
threshold, or execution failure — i.e. any `Err` from the strategy) is
answered with `execution_time = "0ms"` and the failure's message, for
every pair of clock readings (so no elapsed time enters the failure
path); on the success path the elapsed `endMs - startMs` is reported. -/
theorem claim_C7_error_time_zero (engine : RustExecutionEngine)
    (request : ArbitrageRequest) (rP rS rExec : ℚ) (startMs endMs : Nat) :
    (∀ e, perform_high_frequency_arbitrage request rP rS rExec = .error e →
        execute_funding_rate_arbitrage engine request rP rS rExec startMs
            endMs =
          some { status := "error", profit := none,
                 execution_time := "0ms", gas_used := none,
                 error_message := some e }) ∧
    (∀ p, perform_high_frequency_arbitrage request rP rS rExec = .ok p →
        startMs ≤ endMs →
        execute_funding_rate_arbitrage engine request rP rS rExec startMs
            endMs =
          some { status := "success", profit := some p,
                 execution_time := toString (endMs - startMs) ++ "ms",
                 gas_used := some engine.gas_optimizer.current_gas_price,
                 error_message := none }) := by
  constructor
  · intro e he
    unfold execute_funding_rate_arbitrage
    rw [he]
  · intro p hp hle
    unfold execute_funding_rate_arbitrage
    rw [hp]
    simp [duration_since_unwrap, hle]

/-- Witness for C7: the below-threshold request is answered with `"0ms"`
even though the clock readings are 3 and 7; the example trade reports the
measured 5 ms. -/
theorem claim_C7_error_time_zero_witness :
    execute_funding_rate_arbitrage RustExecutionEngine.new reqSame 0 0 0 3 7 =
      some { status := "error", profit := none, execution_time := "0ms",
             gas_used := none, error_message := some "資金費率差異太小" } ∧
    execute_funding_rate_arbitrage RustExecutionEngine.new req10000 0 0 0 0 5 =
      some { status := "success", profit := some (19/20),
             execution_time := toString (5 - 0) ++ "ms",
             gas_used :=
               some RustExecutionEngine.new.gas_optimizer.current_gas_price,
             error_message := none } :=
  ⟨(claim_C7_error_time_zero RustExecutionEngine.new reqSame 0 0 0 3 7).1
      "資金費率差異太小" perform_reqSame,
   (claim_C7_error_time_zero RustExecutionEngine.new req10000 0 0 0 0 5).2
      (19/20) perform_req10000 (by decide)⟩

/-- Counterexample to C8 as stated: a panic branch is reachable — on the
success path the source unwraps `SystemTime::duration_since`, which fails
when the completion clock reading (0) precedes the start reading (1), so
for that input the engine produces no response at all. -/
theorem claim_C8_counterexample :
    execute_funding_rate_arbitrage RustExecutionEngine.new req10000 0 0 0 1 0 =
      none :=
  exec_panics

/-- Claim C8 (amended): `execute_funding_rate_arbitrage` totally returns a
response provided the completion clock reading is not earlier than the
start reading; and every strategy failure is converted into an error
response unconditionally (only the success path's duration `.unwrap()` can
panic, when the clock runs backwards between the two readings). -/
theorem claim_C8_amended (engine : RustExecutionEngine)
    (request : ArbitrageRequest) (rP rS rExec : ℚ) (startMs endMs : Nat) :
    (startMs ≤ endMs →
        (execute_funding_rate_arbitrage engine request rP rS rExec startMs
            endMs).isSome = true) ∧
    (∀ e, perform_high_frequency_arbitrage request rP rS rExec = .error e →
        (execute_funding_rate_arbitrage engine request rP rS rExec startMs
            endMs).isSome = true) := by
  constructor
  · exact execute_isSome_of_le engine request rP rS rExec startMs endMs
  · intro e he
    unfold execute_funding_rate_arbitrage
    rw [he]
    rfl

/-- Witness for the amended C8: the example trade with sane clock readings
gets a response, and a failing request gets one even with the clock run
backwards (readings 9 then 2). -/
theorem claim_C8_amended_witness :
    (execute_funding_rate_arbitrage RustExecutionEngine.new req10000 0 0 0 0
        5).isSome = true ∧
    (execute_funding_rate_arbitrage RustExecutionEngine.new reqSame 0 0 0 9
        2).isSome = true :=
  ⟨(claim_C8_amended RustExecutionEngine.new req10000 0 0 0 0 5).1
      (by decide),
   (claim_C8_amended RustExecutionEngine.new reqSame 0 0 0 9 2).2
      "資金費率差異太小" perform_reqSame⟩

/-- Claim C9: every successful response carries `gas_used` equal to the
gas optimizer's `current_gas_price` constant 20000000000 — the same
constant for every success, not a measured consumption and not the
`max_gas_limit` (which is 5000000). -/
theorem claim_C9_gas_constant (request : ArbitrageRequest)
    (rP rS rExec : ℚ) (startMs endMs : Nat) (r : ArbitrageResponse)
    (h : execute_funding_rate_arbitrage RustExecutionEngine.new request rP rS
        rExec startMs endMs = some r)
    (hs : r.status = "success") :
    r.gas_used = some 20000000000 ∧
    RustExecutionEngine.new.gas_optimizer.current_gas_price = 20000000000 ∧
    RustExecutionEngine.new.gas_optimizer.max_gas_limit ≠ 20000000000 := by
  unfold execute_funding_rate_arbitrage at h
  repeat' split at h
  all_goals simp only [Option.some.injEq, reduceCtorEq] at h
  all_goals subst h
  all_goals first
    | exact ⟨rfl, rfl, by decide⟩
    | simp at hs

/-- Witness for C9 at the example trade's successful response. -/
theorem claim_C9_gas_constant_witness :
    respSuccess10000.gas_used = some 20000000000 ∧
    RustExecutionEngine.new.gas_optimizer.current_gas_price = 20000000000 ∧
    RustExecutionEngine.new.gas_optimizer.max_gas_limit ≠ 20000000000 :=
  claim_C9_gas_constant req10000 0 0 0 0 5 respSuccess10000
    exec_success10000 rfl

/-- Claim C10: `get_funding_rate` succeeds exactly on the exchange
identifiers that key the registry built by `RustExecutionEngine::new` —
the hardcoded match arms and the registry keys coincide, although the
function never consults the map. -/
theorem claim_C10_registry_match_coincide (e s : String) (r : ℚ) :
    (∃ q, get_funding_rate e s r = .ok q) ↔
      e ∈ registryKeys RustExecutionEngine.new := by
  rw [registry_mem_iff]
  constructor
  · rintro ⟨q, hq⟩
    by_contra hmem
    push_neg at hmem
    obtain ⟨h1, h2, h3⟩ := hmem
    unfold get_funding_rate at hq
    rw [if_neg h1, if_neg h2, if_neg h3] at hq
    exact absurd hq (by simp)
  · exact get_funding_rate_isOk e s r

end Arbitrage
